import Mathlib

/-!
Verification of the instance-lifecycle and transaction-management core of the
isar embedded database (`packages/isar_core/src/sqlite/sqlite_instance.rs`).

The Rust code is shallowly embedded: the immutable part of `SQLiteInstance`
(path, collection registry, declared collection ids, schema hash) becomes a
Lean structure, the mutable `ThreadLocal<RefCell<Option<SQLite3>>>` connection
pool becomes explicit state (`InstanceState`) threaded through the operations,
and the external collaborators (SQLite engine, schema validator, fingerprint,
migration manager) become an oracle record `Env`.  Connections are identified
by a natural-number counter so that "a brand-new connection" is expressible.
An `Outcome` distinguishes success, a returned error, and a process panic
(the Rust `.unwrap()` on a fallible call).  Construction additionally returns
a trace of the side effects it performed, so "performs no migration / touches
no storage" is a provable statement.
-/

namespace Isar

/-- Data types of properties (`core::data_type::DataType`); the variants are
irrelevant to the properties proved here, a representative subset suffices. -/
inductive DataType where
  | bool | byte | int | float | long | double | string | object | json
  deriving DecidableEq, Repr

/-- Errors (`core::error::IsarError`).  `IllegalArg` carries its message as in
the source; the collaborator-produced errors are abstract. -/
inductive IsarError where
  | IllegalArg (message : String)
  | SchemaError (message : String)
  | MigrationError (message : String)
  | IoError (message : String)
  | SchemaMismatch
  deriving DecidableEq, Repr

/-- Result of a fallible operation.  `panic` models a Rust `.unwrap()` hit on
an `Err`, which aborts the process instead of returning an error. -/
inductive Outcome (α : Type) where
  | ok (value : α)
  | error (e : IsarError)
  | panic
  deriving DecidableEq, Repr

/-- Modelled from the spec: `PropertySchema` lives in `core::schema`, which is
not among the provided sources.  Per the spec a Property has a name (optional:
properties without a resolvable name exist for structural reasons), a declared
type, and an optional link target; `get_target_id` resolves the target. -/
structure PropertySchema where
  name : Option String
  data_type : DataType
  target_id : Option Nat
  deriving DecidableEq, Repr

def PropertySchema.get_target_id (p : PropertySchema) : Option Nat :=
  p.target_id

/-- Modelled from the spec: `CollectionSchema` lives in `core::schema`, which
is not among the provided sources.  A collection has a name, an ordered list
of declared properties, and a stable collection identifier (`get_id`). -/
structure CollectionSchema where
  name : String
  properties : List PropertySchema
  id : Nat
  deriving DecidableEq, Repr

def CollectionSchema.get_id (c : CollectionSchema) : Nat :=
  c.id

/-- Modelled from the spec: `IsarSchema` (`core::schema`) is the ordered list
of declared collections. -/
structure IsarSchema where
  collections : List CollectionSchema
  deriving DecidableEq, Repr

/-- `SQLiteProperty` (`sqlite_collection.rs`, constructed via
`SQLiteProperty::new(name, data_type, target_id)`). -/
structure SQLiteProperty where
  name : String
  data_type : DataType
  target_id : Option Nat
  deriving DecidableEq, Repr

def SQLiteProperty.new (name : String) (dt : DataType) (tid : Option Nat) :
    SQLiteProperty :=
  ⟨name, dt, tid⟩

/-- `SQLiteCollection` (`sqlite_collection.rs`, constructed via
`SQLiteCollection::new(name, properties)`). -/
structure SQLiteCollection where
  name : String
  properties : List SQLiteProperty
  deriving DecidableEq, Repr

def SQLiteCollection.new (name : String) (ps : List SQLiteProperty) :
    SQLiteCollection :=
  ⟨name, ps⟩

/-- `intmap::IntMap`, embedded as an association list keyed by `Nat`. -/
abbrev IntMap (α : Type) := List (Nat × α)

/-- `IntMap::insert`: inserting replaces any existing entry for the key. -/
def intMapInsert {α : Type} (m : IntMap α) (k : Nat) (v : α) : IntMap α :=
  (k, v) :: m.filter (fun kv => kv.1 ≠ k)

/-- `IntMap::get`. -/
def intMapGet {α : Type} (m : IntMap α) (k : Nat) : Option α :=
  (m.find? (fun kv => kv.1 = k)).map (fun kv => kv.2)

/-- The immutable part of `SQLiteInstance`: storage path, collection registry,
declared collection ids in declaration order, and the schema fingerprint.
The mutable per-thread connection pool (`sqlite: ThreadLocal<RefCell<Option
<SQLite3>>>`) is modelled separately as `InstanceState`. -/
structure SQLiteInstance where
  path : String
  collections : IntMap SQLiteCollection
  collection_ids : List Nat
  schema_hash : Nat
  deriving DecidableEq, Repr

/-- The mutable state of one instance: `slots t` is the calling thread `t`'s
pool slot — `none` when the `ThreadLocal` cell was never created for `t`,
`some none` when the cell exists but holds no idle connection, `some (some c)`
when connection `c` is idle in the slot.  `nextConn` is the counter handing
out fresh connection identities. -/
structure InstanceState where
  slots : Nat → Option (Option Nat)
  nextConn : Nat

/-- Pointwise update of the per-thread slot map. -/
def setSlot (f : Nat → Option (Option Nat)) (t : Nat) (v : Option (Option Nat)) :
    Nat → Option (Option Nat) :=
  fun t2 => if t2 = t then v else f t2

/-- Oracle for the external collaborators (spec §6).  `verify`, `hash` and
`migrate` model `verify_schema`, `hash_schema` and
`SQLiteSchemaManager::perform_migration`; `openRes path n` is the outcome of
the `n`-th `SQLite3::open(path)` (`none` = success, producing connection `n`);
`beginRes c w` is the outcome of `SQLiteTxn::new(c, w)`; `commitRes c` and
`rollbackRes c` are the outcomes of `SQLiteTxn::commit` / `SQLiteTxn::abort`
on connection `c` (`none` = success, handing the connection back). -/
structure Env where
  verify : IsarSchema → Option IsarError
  hash : IsarSchema → Nat
  openRes : String → Nat → Option IsarError
  migrate : IsarSchema → Option IsarError
  beginRes : Nat → Bool → Option IsarError
  commitRes : Nat → Option IsarError
  rollbackRes : Nat → Option IsarError

/-- Side effects performed by instance construction, recorded as a trace. -/
inductive Effect where
  | verifySchema
  | hashSchema
  | openConn
  | migrate
  deriving DecidableEq, Repr

/-- A transaction (`SQLiteTxn`): owns one connection, read or write. -/
structure SQLiteTxn where
  conn : Nat
  write : Bool
  deriving DecidableEq, Repr

/-- `SQLiteQueryBuilder::new(collection, all_collections)`. -/
structure SQLiteQueryBuilder where
  collection : SQLiteCollection
  all_collections : IntMap SQLiteCollection
  deriving DecidableEq, Repr

/-- `SQLiteInsert::new(txn, collection, all_collections, count)`. -/
structure SQLiteInsert where
  txn : SQLiteTxn
  collection : SQLiteCollection
  all_collections : IntMap SQLiteCollection
  count : Nat
  deriving DecidableEq, Repr

/-- `SQLiteInstance::get_collections`: one pass over the declared collections,
building the id-keyed registry and the declaration-order id list.  Each
collection keeps exactly its named properties (`filter_map` over `p.name`). -/
def mkProperties (props : List PropertySchema) : List SQLiteProperty :=
  props.filterMap (fun p =>
    match p.name with
    | some name => some (SQLiteProperty.new name p.data_type p.get_target_id)
    | none => none)

def mkCollection (cs : CollectionSchema) : SQLiteCollection :=
  SQLiteCollection.new cs.name (mkProperties cs.properties)

def get_collections (schema : IsarSchema) :
    IntMap SQLiteCollection × List Nat :=
  schema.collections.foldl
    (fun acc cs =>
      (intMapInsert acc.1 cs.get_id (mkCollection cs), acc.2 ++ [cs.get_id]))
    ([], [])

/-- `SQLiteInstance::open_instance`.  With no directory it fails at once with
`IllegalArg`; otherwise it verifies the schema, hashes it, resolves
`<dir>/<name>.sqlite`, opens a connection — `SQLite3::open(&path).unwrap()`,
a panic on failure — migrates, and assembles the instance.  The second
component is the trace of effects actually performed. -/
def SQLiteInstance.open_instance (env : Env) (name : String)
    (dir : Option String) (schema : IsarSchema) (_relaxed_durability : Bool) :
    Outcome SQLiteInstance × List Effect :=
  match dir with
  | some d =>
    match env.verify schema with
    | some e => (.error e, [.verifySchema])
    | none =>
      let schema_hash := env.hash schema
      let path := d ++ "/" ++ name ++ ".sqlite"
      match env.openRes path 0 with
      | some _ => (.panic, [.verifySchema, .hashSchema, .openConn])
      | none =>
        match env.migrate schema with
        | some e => (.error e, [.verifySchema, .hashSchema, .openConn, .migrate])
        | none =>
          let cs := get_collections schema
          (.ok ⟨path, cs.1, cs.2, schema_hash⟩,
            [.verifySchema, .hashSchema, .openConn, .migrate])
  | none => (.error (.IllegalArg "Please provide a valid directory."), [])

/-- Modelled from the spec: `get_or_open_instance` lives in
`crate::common::instance`, which is not among the provided sources.  Per spec
§4.1, if a live instance exists for the name its fingerprint is compared with
the fingerprint of the newly supplied schema — equal returns the shared
instance untouched, unequal fails with a schema-mismatch error; otherwise the
supplied constructor runs and, on success only, the instance is registered. -/
def get_or_open_instance (env : Env)
    (registry : List (String × SQLiteInstance)) (name : String)
    (schema : IsarSchema)
    (openFn : IsarSchema → Outcome SQLiteInstance × List Effect) :
    (Outcome SQLiteInstance × List Effect) × List (String × SQLiteInstance) :=
  match registry.find? (fun kv => kv.1 = name) with
  | some kv =>
    if kv.2.schema_hash = env.hash schema then ((.ok kv.2, []), registry)
    else ((.error .SchemaMismatch, []), registry)
  | none =>
    match openFn schema with
    | (.ok inst, tr) => ((.ok inst, tr), (name, inst) :: registry)
    | (r, tr) => ((r, tr), registry)

/-- `SQLiteInstance::open` (named `openDb` because `open` is a Lean keyword):
delegates to `get_or_open_instance` with `open_instance` as the constructor. -/
def openDb (env : Env) (registry : List (String × SQLiteInstance))
    (name : String) (dir : Option String) (schema : IsarSchema)
    (relaxed_durability : Bool) :
    (Outcome SQLiteInstance × List Effect) × List (String × SQLiteInstance) :=
  get_or_open_instance env registry name schema
    (fun s => SQLiteInstance.open_instance env name dir s relaxed_durability)

/-- `SQLiteInstance::schema_hash`. -/
def SQLiteInstance.schema_hash_fn (inst : SQLiteInstance) : Nat :=
  inst.schema_hash

/-- `SQLiteInstance::collection_id`: positional lookup into the declared id
list (`self.collection_ids.get(index).copied()`). -/
def SQLiteInstance.collection_id (inst : SQLiteInstance) (index : Nat) :
    Option Nat :=
  inst.collection_ids[index]?

/-- `SQLiteInstance::begin_txn` on thread `t`.  `get_or_try` creates the
thread's cell on first use, filling it by opening a fresh connection — and the
source `.unwrap()`s that result, so a failed open there panics.  `take()`
empties the cell; if it held an idle connection that one is used, otherwise a
brand-new connection is opened (`SQLite3::open(&self.path)?`, error
propagated).  `SQLiteTxn::new` then begins the engine transaction. -/
def SQLiteInstance.begin_txn (env : Env) (inst : SQLiteInstance)
    (s : InstanceState) (t : Nat) (write : Bool) :
    Outcome SQLiteTxn × InstanceState :=
  match s.slots t with
  | none =>
    match env.openRes inst.path s.nextConn with
    | some _ => (.panic, s)
    | none =>
      let c := s.nextConn
      let s1 : InstanceState := ⟨setSlot s.slots t (some none), c + 1⟩
      match env.beginRes c write with
      | some e => (.error e, s1)
      | none => (.ok ⟨c, write⟩, s1)
  | some (some c) =>
    let s1 : InstanceState := ⟨setSlot s.slots t (some none), s.nextConn⟩
    match env.beginRes c write with
    | some e => (.error e, s1)
    | none => (.ok ⟨c, write⟩, s1)
  | some none =>
    match env.openRes inst.path s.nextConn with
    | some e => (.error e, s)
    | none =>
      let c := s.nextConn
      let s1 : InstanceState := ⟨s.slots, c + 1⟩
      match env.beginRes c write with
      | some e => (.error e, s1)
      | none => (.ok ⟨c, write⟩, s1)

/-- `SQLiteInstance::commit_txn` on thread `t`: `txn.commit()?` — an engine
commit failure is returned and the connection forfeited; on success the
connection is stored back into the thread's cell if one exists
(`if let Some(cell) = self.sqlite.get()`), else dropped. -/
def SQLiteInstance.commit_txn (env : Env) (s : InstanceState) (t : Nat)
    (txn : SQLiteTxn) : Outcome Unit × InstanceState :=
  match env.commitRes txn.conn with
  | some e => (.error e, s)
  | none =>
    match s.slots t with
    | some _ => (.ok (), ⟨setSlot s.slots t (some (some txn.conn)), s.nextConn⟩)
    | none => (.ok (), s)

/-- `SQLiteInstance::abort_txn` on thread `t`: `if let Ok(sqlite) =
txn.abort()` — a rollback failure is swallowed and the connection dropped; on
success the connection is stored back into the thread's cell if one exists.
The Rust function returns `()`; the `Outcome` component makes "never fails"
provable. -/
def SQLiteInstance.abort_txn (env : Env) (s : InstanceState) (t : Nat)
    (txn : SQLiteTxn) : Outcome Unit × InstanceState :=
  match env.rollbackRes txn.conn with
  | none =>
    match s.slots t with
    | some _ => (.ok (), ⟨setSlot s.slots t (some (some txn.conn)), s.nextConn⟩)
    | none => (.ok (), s)
  | some _ => (.ok (), s)

/-- `SQLiteInstance::query`: validates the collection id against the registry
(`IllegalArg` on an unknown id) and builds a query builder; the method takes
`&self` and never touches the pool, so the state passes through unchanged. -/
def SQLiteInstance.query (inst : SQLiteInstance) (s : InstanceState)
    (collection_id : Nat) :
    Except IsarError SQLiteQueryBuilder × InstanceState :=
  match intMapGet inst.collections collection_id with
  | none => (.error (.IllegalArg "Invalid collection id."), s)
  | some col => (.ok ⟨col, inst.collections⟩, s)

/-- `SQLiteInstance::insert`: validates the collection id against the registry
(`IllegalArg` on an unknown id) and builds an insert bound to the transaction;
takes `&self`, so the state passes through unchanged. -/
def SQLiteInstance.insert (inst : SQLiteInstance) (s : InstanceState)
    (txn : SQLiteTxn) (collection_id : Nat) (count : Nat) :
    Except IsarError SQLiteInsert × InstanceState :=
  match intMapGet inst.collections collection_id with
  | none => (.error (.IllegalArg "Invalid collection id."), s)
  | some col => (.ok ⟨txn, col, inst.collections, count⟩, s)

/-! ## Helper lemmas -/

theorem foldl_collections_snd (l : List CollectionSchema)
    (m : IntMap SQLiteCollection) (ids : List Nat) :
    (l.foldl
      (fun acc cs =>
        (intMapInsert acc.1 cs.get_id (mkCollection cs), acc.2 ++ [cs.get_id]))
      (m, ids)).2 = ids ++ l.map CollectionSchema.get_id := by
  induction l generalizing m ids with
  | nil => simp
  | cons cs l ih => simp [List.foldl_cons, ih]

theorem get_collections_snd (schema : IsarSchema) :
    (get_collections schema).2 = schema.collections.map CollectionSchema.get_id := by
  unfold get_collections
  rw [foldl_collections_snd]
  simp

theorem open_instance_ok (env : Env) (name : String) (dir : Option String)
    (schema : IsarSchema) (rd : Bool) (inst : SQLiteInstance) (tr : List Effect)
    (h : SQLiteInstance.open_instance env name dir schema rd = (.ok inst, tr)) :
    inst.schema_hash = env.hash schema ∧
      inst.collection_ids = schema.collections.map CollectionSchema.get_id := by
  unfold SQLiteInstance.open_instance at h
  cases dir with
  | none => simp at h
  | some d =>
    cases hv : env.verify schema with
    | some e => simp [hv] at h
    | none =>
      simp only [hv] at h
      cases ho : env.openRes (d ++ "/" ++ name ++ ".sqlite") 0 with
      | some e => simp [ho] at h
      | none =>
        simp only [ho] at h
        cases hm : env.migrate schema with
        | some e => simp [hm] at h
        | none =>
          simp only [hm, Prod.mk.injEq, Outcome.ok.injEq] at h
          obtain ⟨hinst, -⟩ := h
          subst hinst
          exact ⟨rfl, get_collections_snd schema⟩

/-! ## Claims -/

/-- Claim C2: `commit_txn` executes the engine-level commit on the
transaction's owned connection; on success it stores the connection back into
the calling thread's pool slot, overwriting any previous idle connection held
in that slot; if the engine commit fails, the error is returned to the caller
and the connection is not returned to the pool (state unchanged). -/
theorem c2_commit_returns_connection_to_slot (env : Env) (s : InstanceState)
    (t : Nat) (txn : SQLiteTxn) (prev : Option Nat)
    (hslot : s.slots t = some prev) :
    (env.commitRes txn.conn = none →
      SQLiteInstance.commit_txn env s t txn
        = (.ok (), ⟨setSlot s.slots t (some (some txn.conn)), s.nextConn⟩)) ∧
    (∀ e, env.commitRes txn.conn = some e →
      SQLiteInstance.commit_txn env s t txn = (.error e, s)) := by
  constructor
  · intro hc
    simp [SQLiteInstance.commit_txn, hc, hslot]
  · intro e hc
    simp [SQLiteInstance.commit_txn, hc]

theorem c2_commit_returns_connection_to_slot_witness :
    let s : InstanceState := ⟨fun t => if t = 0 then some (some 5) else none, 9⟩
    let env : Env := ⟨fun _ => none, fun _ => 0, fun _ _ => none, fun _ => none,
      fun _ _ => none, fun _ => none, fun _ => none⟩
    s.slots 0 = some (some 5) ∧
    ((env.commitRes 7 = none →
      SQLiteInstance.commit_txn env s 0 ⟨7, true⟩
        = (.ok (), ⟨setSlot s.slots 0 (some (some 7)), s.nextConn⟩)) ∧
    (∀ e, env.commitRes 7 = some e →
      SQLiteInstance.commit_txn env s 0 ⟨7, true⟩ = (.error e, s))) :=
  ⟨rfl, c2_commit_returns_connection_to_slot _ _ 0 ⟨7, true⟩ (some 5) rfl⟩

/-- Claim C4: `abort_txn` never returns a failure to its caller; if the
engine-level rollback succeeds, the connection is stored back into the calling
thread's pool slot; if the rollback fails, the connection is silently dropped
— no error surfaced and the pool state unchanged. -/
theorem c4_abort_best_effort (env : Env) (s : InstanceState) (t : Nat)
    (txn : SQLiteTxn) (prev : Option Nat) :
    ((SQLiteInstance.abort_txn env s t txn).1 = .ok ()) ∧
    (env.rollbackRes txn.conn = none → s.slots t = some prev →
      SQLiteInstance.abort_txn env s t txn
        = (.ok (), ⟨setSlot s.slots t (some (some txn.conn)), s.nextConn⟩)) ∧
    (∀ e, env.rollbackRes txn.conn = some e →
      SQLiteInstance.abort_txn env s t txn = (.ok (), s)) := by
  refine ⟨?_, ?_, ?_⟩
  · unfold SQLiteInstance.abort_txn
    cases hr : env.rollbackRes txn.conn with
    | none =>
      cases hs : s.slots t <;> simp
    | some e => simp
  · intro hr hslot
    simp [SQLiteInstance.abort_txn, hr, hslot]
  · intro e hr
    simp [SQLiteInstance.abort_txn, hr]

theorem c4_abort_best_effort_witness :
    let s : InstanceState := ⟨fun t => if t = 0 then some none else none, 9⟩
    let env : Env := ⟨fun _ => none, fun _ => 0, fun _ _ => none, fun _ => none,
      fun _ _ => none, fun _ => none, fun _ => none⟩
    ((SQLiteInstance.abort_txn env s 0 ⟨7, false⟩).1 = .ok ()) ∧
    (env.rollbackRes 7 = none → s.slots 0 = some none →
      SQLiteInstance.abort_txn env s 0 ⟨7, false⟩
        = (.ok (), ⟨setSlot s.slots 0 (some (some 7)), s.nextConn⟩)) ∧
    (∀ e, env.rollbackRes 7 = some e →
      SQLiteInstance.abort_txn env s 0 ⟨7, false⟩ = (.ok (), s)) :=
  c4_abort_best_effort _ _ 0 ⟨7, false⟩ none

/-- Claim C10: when `commit_txn` or `abort_txn` runs on a thread whose pool
slot was never initialized, the call still completes with its normal result
(commit: ok on engine success, the engine error otherwise; abort: always ok),
but the connection is dropped rather than stored — the state is unchanged, so
no slot is created and no slot on any thread is modified. -/
theorem c10_uninitialized_slot_drops_connection (env : Env)
    (s : InstanceState) (t : Nat) (txn : SQLiteTxn)
    (h : s.slots t = none) :
    (env.commitRes txn.conn = none →
      SQLiteInstance.commit_txn env s t txn = (.ok (), s)) ∧
    (∀ e, env.commitRes txn.conn = some e →
      SQLiteInstance.commit_txn env s t txn = (.error e, s)) ∧
    ((SQLiteInstance.abort_txn env s t txn).1 = .ok () ∧
      (SQLiteInstance.abort_txn env s t txn).2 = s) := by
  refine ⟨?_, ?_, ?_⟩
  · intro hc
    simp [SQLiteInstance.commit_txn, hc, h]
  · intro e hc
    simp [SQLiteInstance.commit_txn, hc]
  · unfold SQLiteInstance.abort_txn
    cases hr : env.rollbackRes txn.conn with
    | none => simp [h]
    | some e => simp

theorem c10_uninitialized_slot_drops_connection_witness :
    let s : InstanceState := ⟨fun t => if t = 1 then some (some 5) else none, 9⟩
    let env : Env := ⟨fun _ => none, fun _ => 0, fun _ _ => none, fun _ => none,
      fun _ _ => none, fun _ => none, fun _ => none⟩
    s.slots 0 = none ∧
    ((env.commitRes 7 = none →
      SQLiteInstance.commit_txn env s 0 ⟨7, true⟩ = (.ok (), s)) ∧
    (∀ e, env.commitRes 7 = some e →
      SQLiteInstance.commit_txn env s 0 ⟨7, true⟩ = (.error e, s)) ∧
    ((SQLiteInstance.abort_txn env s 0 ⟨7, true⟩).1 = .ok () ∧
      (SQLiteInstance.abort_txn env s 0 ⟨7, true⟩).2 = s)) :=
  ⟨rfl, c10_uninitialized_slot_drops_connection _ _ 0 ⟨7, true⟩ rfl⟩

/-- Claim C7: for every collection id absent from the instance's collection
registry, `query` and `insert` both fail with `IllegalArg` and pass the pool
state through unchanged (no engine interaction appears in either operation). -/
theorem c7_invalid_collection_id_rejected (inst : SQLiteInstance)
    (s : InstanceState) (txn : SQLiteTxn) (cid count : Nat)
    (h : intMapGet inst.collections cid = none) :
    SQLiteInstance.query inst s cid
      = (.error (.IllegalArg "Invalid collection id."), s) ∧
    SQLiteInstance.insert inst s txn cid count
      = (.error (.IllegalArg "Invalid collection id."), s) := by
  constructor
  · simp [SQLiteInstance.query, h]
  · simp [SQLiteInstance.insert, h]

theorem c7_invalid_collection_id_rejected_witness :
    let inst : SQLiteInstance :=
      ⟨"/tmp/test.sqlite", [(3, ⟨"Test", []⟩)], [3], 42⟩
    let s : InstanceState := ⟨fun _ => none, 0⟩
    intMapGet inst.collections 99 = none ∧
    (SQLiteInstance.query inst s 99
      = (.error (.IllegalArg "Invalid collection id."), s) ∧
    SQLiteInstance.insert inst s ⟨7, true⟩ 99 5
      = (.error (.IllegalArg "Invalid collection id."), s)) :=
  ⟨rfl, c7_invalid_collection_id_rejected _ _ ⟨7, true⟩ 99 5 rfl⟩

/-- Claim C3: `begin_txn` with an idle connection in the calling thread's slot
removes it from the slot and uses it for the new transaction, opening no new
connection (`nextConn` unchanged); with the slot empty — including when a
second transaction begins on the same thread before the first returned its
connection — a brand-new connection (the fresh counter value) is opened and
the call succeeds rather than blocking or erroring. -/
theorem c3_begin_txn_pool_reuse_or_fresh (env : Env) (inst : SQLiteInstance)
    (s : InstanceState) (t : Nat) (write : Bool) (c : Nat) :
    (s.slots t = some (some c) → env.beginRes c write = none →
      SQLiteInstance.begin_txn env inst s t write
        = (.ok ⟨c, write⟩, ⟨setSlot s.slots t (some none), s.nextConn⟩)) ∧
    (s.slots t = some none → env.openRes inst.path s.nextConn = none →
      env.beginRes s.nextConn write = none →
      SQLiteInstance.begin_txn env inst s t write
        = (.ok ⟨s.nextConn, write⟩, ⟨s.slots, s.nextConn + 1⟩)) ∧
    (s.slots t = none → env.openRes inst.path s.nextConn = none →
      env.beginRes s.nextConn write = none →
      SQLiteInstance.begin_txn env inst s t write
        = (.ok ⟨s.nextConn, write⟩,
          ⟨setSlot s.slots t (some none), s.nextConn + 1⟩)) := by
  refine ⟨?_, ?_, ?_⟩
  · intro hslot hb
    simp [SQLiteInstance.begin_txn, hslot, hb]
  · intro hslot ho hb
    simp [SQLiteInstance.begin_txn, hslot, ho, hb]
  · intro hslot ho hb
    simp [SQLiteInstance.begin_txn, hslot, ho, hb]

theorem c3_begin_txn_pool_reuse_or_fresh_witness :
    let inst : SQLiteInstance := ⟨"/tmp/test.sqlite", [], [], 0⟩
    let s : InstanceState := ⟨fun t => if t = 0 then some (some 4) else none, 8⟩
    let env : Env := ⟨fun _ => none, fun _ => 0, fun _ _ => none, fun _ => none,
      fun _ _ => none, fun _ => none, fun _ => none⟩
    s.slots 0 = some (some 4) ∧ env.beginRes 4 true = none ∧
    SQLiteInstance.begin_txn env inst s 0 true
      = (.ok ⟨4, true⟩, ⟨setSlot s.slots 0 (some none), s.nextConn⟩) ∧
    (s.slots 1 = none ∧
      SQLiteInstance.begin_txn env inst s 1 true
        = (.ok ⟨8, true⟩, ⟨setSlot s.slots 1 (some none), 9⟩)) :=
  ⟨rfl, rfl,
    (c3_begin_txn_pool_reuse_or_fresh _ _ _ 0 true 4).1 rfl rfl,
    rfl,
    (c3_begin_txn_pool_reuse_or_fresh _ _ _ 1 true 4).2.2 rfl rfl rfl⟩

/-- Claim C6: calling open with `directory = None` fails with an
illegal-argument error for every name and every schema, performing no schema
validation, fingerprinting, filesystem access, or migration (empty effect
trace); the same holds through the registry entry point when no live instance
exists for the name. -/
theorem c6_missing_directory_illegal_arg (env : Env) (name : String)
    (schema : IsarSchema) (rd : Bool)
    (reg : List (String × SQLiteInstance))
    (hreg : reg.find? (fun kv => kv.1 = name) = none) :
    SQLiteInstance.open_instance env name none schema rd
      = (.error (.IllegalArg "Please provide a valid directory."), []) ∧
    openDb env reg name none schema rd
      = ((.error (.IllegalArg "Please provide a valid directory."), []), reg) := by
  constructor
  · rfl
  · simp [openDb, get_or_open_instance, hreg, SQLiteInstance.open_instance]

theorem c6_missing_directory_illegal_arg_witness :
    let env : Env := ⟨fun _ => some (.SchemaError "bad"), fun _ => 0,
      fun _ _ => none, fun _ => none, fun _ _ => none, fun _ => none,
      fun _ => none⟩
    let schema : IsarSchema := ⟨[⟨"Test", [⟨some "p", .string, none⟩], 3⟩]⟩
    (List.find? (fun kv => kv.1 = "db") ([] : List (String × SQLiteInstance))
      = none) ∧
    (SQLiteInstance.open_instance env "db" none schema false
      = (.error (.IllegalArg "Please provide a valid directory."), []) ∧
    openDb env [] "db" none schema false
      = ((.error (.IllegalArg "Please provide a valid directory."), []), [])) :=
  ⟨rfl, c6_missing_directory_illegal_arg _ "db" _ false [] rfl⟩

/-- The property list as the spec's words describe it: exactly the
schema-declared properties that have a resolvable name, in declaration order,
each carrying its name, declared type and link target. -/
def specPropertyList (props : List PropertySchema) : List SQLiteProperty :=
  (props.filter (fun p => p.name.isSome)).map
    (fun p => SQLiteProperty.new (p.name.getD "") p.data_type p.get_target_id)

/-- Claim C8: each constructed collection's property list contains exactly the
schema-declared properties that have a resolvable name, in their declaration
order; unnamed properties are excluded.  (`mkCollection` is the construction
`get_collections` performs for every declared collection.) -/
theorem c8_properties_named_in_declaration_order (cs : CollectionSchema) :
    (mkCollection cs).properties = specPropertyList cs.properties := by
  show mkProperties cs.properties = specPropertyList cs.properties
  unfold mkProperties specPropertyList
  induction cs.properties with
  | nil => rfl
  | cons p ps ih =>
    cases hn : p.name with
    | some n => simp [List.filterMap_cons, hn, ih]
    | none => simp [List.filterMap_cons, hn, ih]

/-- Claim C9: for an instance constructed from a schema, `collection_id`
returns the collection id at the given position in declaration order whenever
the index is within the number of declared collections, and `none` for every
out-of-range index. -/
theorem c9_collection_id_positional (env : Env) (name : String)
    (dir : Option String) (schema : IsarSchema) (rd : Bool)
    (inst : SQLiteInstance) (tr : List Effect)
    (h : SQLiteInstance.open_instance env name dir schema rd = (.ok inst, tr))
    (i : Nat) :
    (∀ hlt : i < schema.collections.length,
      SQLiteInstance.collection_id inst i
        = some (CollectionSchema.get_id (schema.collections.get ⟨i, hlt⟩))) ∧
    (schema.collections.length ≤ i →
      SQLiteInstance.collection_id inst i = none) := by
  obtain ⟨-, hids⟩ := open_instance_ok env name dir schema rd inst tr h
  constructor
  · intro hlt
    simp [SQLiteInstance.collection_id, hids, List.getElem?_map,
      List.getElem?_eq_getElem hlt]
  · intro hge
    simp [SQLiteInstance.collection_id, hids]
    omega

/-- Fixture: an oracle where every collaborator succeeds. -/
def happyEnv : Env :=
  ⟨fun _ => none, fun _ => 11, fun _ _ => none, fun _ => none,
    fun _ _ => none, fun _ => none, fun _ => none⟩

/-- Fixture: a two-collection schema. -/
def demoSchema : IsarSchema :=
  ⟨[⟨"A", [⟨some "p", .string, none⟩], 5⟩, ⟨"B", [], 7⟩]⟩

/-- Fixture: the instance `open_instance happyEnv "db" (some "/tmp")
demoSchema false` constructs. -/
def demoInst : SQLiteInstance :=
  ⟨"/tmp/db.sqlite",
    intMapInsert (intMapInsert [] 5
      (mkCollection ⟨"A", [⟨some "p", .string, none⟩], 5⟩))
      7 (mkCollection ⟨"B", [], 7⟩),
    [5, 7], 11⟩

theorem c9_collection_id_positional_witness :
    (SQLiteInstance.open_instance happyEnv "db" (some "/tmp") demoSchema false
      = (.ok demoInst, [.verifySchema, .hashSchema, .openConn, .migrate])) ∧
    ((∀ hlt : 1 < demoSchema.collections.length,
      SQLiteInstance.collection_id demoInst 1
        = some (CollectionSchema.get_id (demoSchema.collections.get ⟨1, hlt⟩))) ∧
    (demoSchema.collections.length ≤ 1 →
      SQLiteInstance.collection_id demoInst 1 = none)) :=
  ⟨rfl, c9_collection_id_positional happyEnv "db" (some "/tmp") demoSchema
    false demoInst [.verifySchema, .hashSchema, .openConn, .migrate] rfl 1⟩

/-- Fixture: an oracle where every `SQLite3::open` fails with an I/O error
and everything else succeeds. -/
def failOpenEnv : Env :=
  ⟨fun _ => none, fun _ => 11,
    fun _ _ => some (.IoError "unable to open database file"),
    fun _ => none, fun _ _ => none, fun _ => none, fun _ => none⟩

/-- Claim C5 (code bug): the claim — and the spec's error contract
`open(path) -> Connection | IoError` — says a failed storage-connection open
is returned as an I/O error.  The code instead hits `.unwrap()` on the `Err`:
`SQLite3::open(&path).unwrap()` during instance construction and
`.get_or_try(..).unwrap()` during `begin_txn`'s first-use slot initialization,
panicking the process on both paths; only `begin_txn`'s empty-slot path
propagates the error with `?`.  Evaluated at a failing open: construction and
first-use `begin_txn` panic, while the empty-slot path returns the error. -/
theorem c5_open_failure_panics_instead_of_error :
    (SQLiteInstance.open_instance failOpenEnv "db" (some "/tmp") demoSchema
      false).1 = .panic ∧
    (SQLiteInstance.begin_txn failOpenEnv demoInst
      ⟨fun _ => none, 0⟩ 0 true).1 = .panic ∧
    (SQLiteInstance.begin_txn failOpenEnv demoInst
      ⟨fun t => if t = 0 then some none else none, 0⟩ 0 true).1
      = .error (.IoError "unable to open database file") :=
  ⟨rfl, rfl, rfl⟩

/-- Claim C1: after a successful first open of a name, a second open whose
schema has the same fingerprint returns the very same shared instance with an
empty effect trace (no storage access, no migration) and leaves the registry
unchanged; a second open with a different fingerprint fails with the
schema-mismatch error and also leaves the registry — and hence the existing
instance — untouched. -/
theorem c1_reopen_same_instance_or_mismatch (env : Env) (name : String)
    (dir dir2 : Option String) (s1 s2 : IsarSchema) (rd rd2 : Bool)
    (inst : SQLiteInstance) (tr : List Effect)
    (reg1 : List (String × SQLiteInstance))
    (h1 : openDb env [] name dir s1 rd = ((.ok inst, tr), reg1)) :
    (env.hash s2 = env.hash s1 →
      openDb env reg1 name dir2 s2 rd2 = ((.ok inst, []), reg1)) ∧
    (env.hash s2 ≠ env.hash s1 →
      openDb env reg1 name dir2 s2 rd2
        = ((.error .SchemaMismatch, []), reg1)) := by
  have hfacts : inst.schema_hash = env.hash s1 ∧ reg1 = [(name, inst)] := by
    unfold openDb get_or_open_instance at h1
    simp only [List.find?_nil] at h1
    cases ho : SQLiteInstance.open_instance env name dir s1 rd with
    | mk r tr0 =>
      cases r with
      | ok inst0 =>
        rw [ho] at h1
        simp only [Prod.mk.injEq, Outcome.ok.injEq] at h1
        obtain ⟨⟨hi, -⟩, hr⟩ := h1
        subst hi
        exact ⟨(open_instance_ok env name dir s1 rd inst0 tr0 ho).1, hr.symm⟩
      | error e =>
        rw [ho] at h1
        simp at h1
      | panic =>
        rw [ho] at h1
        simp at h1
  obtain ⟨hh, hr⟩ := hfacts
  subst hr
  constructor
  · intro he
    simp [openDb, get_or_open_instance, List.find?_cons, hh, he]
  · intro hne
    simp [openDb, get_or_open_instance, List.find?_cons, hh, Ne.symm hne]

theorem c1_reopen_same_instance_or_mismatch_witness :
    (openDb happyEnv [] "db" (some "/tmp") demoSchema false
      = ((.ok demoInst, [.verifySchema, .hashSchema, .openConn, .migrate]),
        [("db", demoInst)])) ∧
    ((happyEnv.hash demoSchema = happyEnv.hash demoSchema →
      openDb happyEnv [("db", demoInst)] "db" (some "/tmp") demoSchema false
        = ((.ok demoInst, []), [("db", demoInst)])) ∧
    (happyEnv.hash demoSchema ≠ happyEnv.hash demoSchema →
      openDb happyEnv [("db", demoInst)] "db" (some "/tmp") demoSchema false
        = ((.error .SchemaMismatch, []), [("db", demoInst)]))) :=
  ⟨rfl, c1_reopen_same_instance_or_mismatch happyEnv "db" (some "/tmp")
    (some "/tmp") demoSchema demoSchema false false demoInst
    [.verifySchema, .hashSchema, .openConn, .migrate] [("db", demoInst)] rfl⟩

end Isar
